import Mathlib

/-!
Shallow embedding of `src/bsd/vmnet.c` (tinc's Darwin vmnet adapter).

The module keeps its state in process-wide statics:

  static volatile vmnet_return_t if_status = VMNET_SETUP_INCOMPLETE;
  static dispatch_queue_t if_queue;
  static interface_ref vmnet_if;
  static size_t max_packet_size;
  static struct iovec read_iov_in;
  static int read_socket[2];

We model these as a record `VmnetState`.  The vendor framework (vmnet),
the kernel socketpair/writev calls and the dispatch machinery are external
collaborators; their behaviour at each call site is supplied by an oracle
record, and every framework invocation the adapter performs is appended to
an observation trace `fw_calls` so that "no framework call occurs" claims
are expressible.  Datagrams written to the internal socket end are logged
(by size) in `datagrams`.
-/

/-- The framework's enumerated return codes (`vmnet_return_t`). -/
inductive vmnet_return_t where
  | VMNET_SUCCESS
  | VMNET_FAILURE
  | VMNET_MEM_FAILURE
  | VMNET_INVALID_ARGUMENT
  | VMNET_SETUP_INCOMPLETE
  | VMNET_INVALID_ACCESS
  | VMNET_PACKET_TOO_BIG
  | VMNET_BUFFER_EXHAUSTED
  | VMNET_TOO_MANY_PACKETS
  | VMNET_SHARING_SERVICE_BUSY
deriving DecidableEq, Repr

open vmnet_return_t

/-- `struct iovec read_iov_in` — `iov_base` is modelled by whether the
pointer is non-null (the ReadBuffer is allocated). -/
structure iovec where
  iov_base : Bool
  iov_len : Nat
deriving DecidableEq, Repr

/-- One observable call from the adapter into the vendor framework. -/
inductive FwCall where
  | start
  | setEventCallback (isNull : Bool)
  | stop
  | fwRead
  | fwWrite (handle : Option Nat)
deriving DecidableEq, Repr

/-- The adapter's process-wide statics, plus the two observation logs. -/
structure VmnetState where
  if_status : vmnet_return_t
  if_queue : Bool
  vmnet_if : Option Nat
  max_packet_size : Nat
  read_iov_in : iovec
  read_socket0 : Int
  read_socket1 : Int
  sock0_open : Bool
  sock1_open : Bool
  fw_calls : List FwCall
  datagrams : List Nat
deriving DecidableEq, Repr

/-- C statics before any call: `if_status = VMNET_SETUP_INCOMPLETE`, all
pointers null, integers zero. -/
def initState : VmnetState :=
  { if_status := VMNET_SETUP_INCOMPLETE
    if_queue := false
    vmnet_if := none
    max_packet_size := 0
    read_iov_in := { iov_base := false, iov_len := 0 }
    read_socket0 := 0
    read_socket1 := 0
    sock0_open := false
    sock1_open := false
    fw_calls := []
    datagrams := [] }

/-- External behaviour at one `macos_vmnet_open` call: whether
`socketpair` succeeds and which fds it yields, the `interface_ref`
returned by `vmnet_start_interface`, the status the start-completion
block receives, and the `interface_param` dictionary (none = NULL,
`some mps` = contains `vmnet_max_packet_size_key = mps`). -/
structure OpenOracle where
  socketpair_ok : Bool
  fd0 : Int
  fd1 : Int
  start_ref : Option Nat
  start_status : vmnet_return_t
  interface_param : Option Nat
deriving DecidableEq, Repr

/-- `macos_vmnet_open` (vmnet.c lines 40-83), line by line:
socketpair; build the xpc description; create the serial queue;
`vmnet_start_interface` whose completion block sets `if_status` and, on
success with a non-null param, `max_packet_size`; on non-success status
return -1 (without releasing the queue or the socket pair); otherwise
malloc the ReadBuffer, register the event callback and return
`read_socket[0]`. -/
def macos_vmnet_open (s : VmnetState) (o : OpenOracle) : Int × VmnetState :=
  if o.socketpair_ok = false then
    (-1, s)
  else
    let s1 := { s with read_socket0 := o.fd0, read_socket1 := o.fd1,
                       sock0_open := true, sock1_open := true }
    let s2 := { s1 with if_queue := true }
    let s3 := { s2 with vmnet_if := o.start_ref
                        fw_calls := s2.fw_calls ++ [FwCall.start]
                        if_status := o.start_status
                        max_packet_size :=
                          if o.start_status = VMNET_SUCCESS then
                            match o.interface_param with
                            | some mps => mps
                            | none => s2.max_packet_size
                          else s2.max_packet_size }
    if s3.if_status ≠ VMNET_SUCCESS then
      (-1, s3)
    else
      let s4 := { s3 with read_iov_in := { iov_base := true, iov_len := s3.max_packet_size } }
      let s5 := { s4 with fw_calls := s4.fw_calls ++ [FwCall.setEventCallback false] }
      (s5.read_socket0, s5)

/-- External behaviour at one `macos_vmnet_close` call: the status the
stop-completion block receives. -/
structure CloseOracle where
  stop_status : vmnet_return_t
deriving DecidableEq, Repr

/-- `macos_vmnet_close` (vmnet.c lines 85-117), line by line: guard
`vmnet_if == NULL || fd != read_socket[0]` returns -1 untouched;
deregister the event callback (null callback); `vmnet_stop_interface`
whose completion block sets `if_status`; on non-success status return -1
(without releasing anything); otherwise release the queue, free the
ReadBuffer, close both socket ends and return 0. -/
def macos_vmnet_close (s : VmnetState) (fd : Int) (o : CloseOracle) : Int × VmnetState :=
  if s.vmnet_if = none ∨ fd ≠ s.read_socket0 then
    (-1, s)
  else
    let s1 := { s with fw_calls := s.fw_calls ++ [FwCall.setEventCallback true] }
    let s2 := { s1 with fw_calls := s1.fw_calls ++ [FwCall.stop], if_status := o.stop_status }
    if s2.if_status ≠ VMNET_SUCCESS then
      (-1, s2)
    else
      let s3 := { s2 with if_queue := false }
      let s4 := { s3 with read_iov_in := { iov_base := false, iov_len := 0 } }
      let s5 := { s4 with sock0_open := false, sock1_open := false }
      (0, s5)

/-- External behaviour at one ingress event: the status `vmnet_read`
returns, the resulting in/out packet count, the packet size it stores in
`vm_pkt_size`, the resulting `vm_pkt_iovcnt`, and whether the `writev`
onto the internal socket end succeeds. -/
structure ReadOracle where
  status : vmnet_return_t
  count : Nat
  pkt_size : Nat
  iovcnt : Nat
  writev_ok : Bool
deriving DecidableEq, Repr

/-- `macos_vmnet_read` (vmnet.c lines 119-148), line by line: if the
global `if_status` is not success, return at once; otherwise call
`vmnet_read` (storing its status into the global `if_status`); on
non-success log and return; if `count && packet.vm_pkt_iovcnt`, `writev`
one datagram of `vm_pkt_size` bytes to `read_socket[1]` (a failed writev
just logs). -/
def macos_vmnet_read (s : VmnetState) (o : ReadOracle) : VmnetState :=
  if s.if_status ≠ VMNET_SUCCESS then
    s
  else
    let s1 := { s with fw_calls := s.fw_calls ++ [FwCall.fwRead], if_status := o.status }
    if s1.if_status ≠ VMNET_SUCCESS then
      s1
    else if o.count ≠ 0 ∧ o.iovcnt ≠ 0 then
      if o.writev_ok then
        { s1 with datagrams := s1.datagrams ++ [o.pkt_size] }
      else
        s1
    else
      s1

/-- External behaviour at one `vmnet_write` call: the returned status and
the resulting in/out packet count (passed in as 1). -/
structure WriteOracle where
  status : vmnet_return_t
  pkt_cnt : Nat
deriving DecidableEq, Repr

/-- `macos_vmnet_write` (vmnet.c lines 150-177), line by line: if
`buflen > max_packet_size` return -1; otherwise call `vmnet_write` with
the (possibly null) `vmnet_if`, storing its status into a *local*
`if_status` that shadows the global; on non-success return -1; otherwise
return `pkt_cnt ? buflen : 0`. -/
def macos_vmnet_write (s : VmnetState) (buflen : Nat) (o : WriteOracle) : Int × VmnetState :=
  if buflen > s.max_packet_size then
    (-1, s)
  else
    let s1 := { s with fw_calls := s.fw_calls ++ [FwCall.fwWrite s.vmnet_if] }
    if o.status ≠ VMNET_SUCCESS then
      (-1, s1)
    else
      (if o.pkt_cnt ≠ 0 then (buflen : Int) else 0, s1)

/-! Concrete executions used by the counterexamples. -/

/-- A fully successful open: socketpair yields fds 3 and 4, the framework
returns handle 1 and completes start with success and MaxPacketSize 1514. -/
def openOK : OpenOracle :=
  { socketpair_ok := true, fd0 := 3, fd1 := 4,
    start_ref := some 1, start_status := VMNET_SUCCESS, interface_param := some 1514 }

/-- State after a successful `macos_vmnet_open` from the initial state. -/
def sOpen : VmnetState := (macos_vmnet_open initState openOK).2

/-- State after a successful `macos_vmnet_close sOpen 3`. -/
def sClosed : VmnetState := (macos_vmnet_close sOpen 3 { stop_status := VMNET_SUCCESS }).2

/-- An open attempt in which `socketpair` succeeds (fds 3 and 4) but the
framework completes start with `VMNET_FAILURE` (a NULL interface_param). -/
def openStartFail : OpenOracle :=
  { socketpair_ok := true, fd0 := 3, fd1 := 4,
    start_ref := some 1, start_status := VMNET_FAILURE, interface_param := none }

/-- C4: for every call write(bytes, len) with len > MaxPacketSize, the
call returns an error and the framework's write-packet operation is never
invoked (the state, including the framework-call trace, is unchanged). -/
theorem write_oversize_rejected (s : VmnetState) (len : Nat) (o : WriteOracle)
    (h : len > s.max_packet_size) :
    (macos_vmnet_write s len o).1 = -1 ∧
    ((macos_vmnet_write s len o).2).fw_calls = s.fw_calls := by
  simp [macos_vmnet_write, h]

theorem write_oversize_rejected_witness :
    1 > initState.max_packet_size ∧
    ((macos_vmnet_write initState 1 { status := VMNET_SUCCESS, pkt_cnt := 1 }).1 = -1 ∧
     ((macos_vmnet_write initState 1 { status := VMNET_SUCCESS, pkt_cnt := 1 }).2).fw_calls =
       initState.fw_calls) :=
  ⟨by decide, write_oversize_rejected initState 1 _ (by decide)⟩

/-- C5: for write(bytes, length) with length ≤ MaxPacketSize: framework
success with the in/out count remaining 1 yields `length`; success with
the count decremented to 0 yields 0; a non-success status yields -1. -/
theorem write_result_cases (s : VmnetState) (len : Nat) (o : WriteOracle)
    (h : len ≤ s.max_packet_size) :
    (o.status = VMNET_SUCCESS → o.pkt_cnt = 1 → (macos_vmnet_write s len o).1 = (len : Int)) ∧
    (o.status = VMNET_SUCCESS → o.pkt_cnt = 0 → (macos_vmnet_write s len o).1 = 0) ∧
    (o.status ≠ VMNET_SUCCESS → (macos_vmnet_write s len o).1 = -1) := by
  have hng : ¬ len > s.max_packet_size := by omega
  simp only [macos_vmnet_write, if_neg hng]
  refine ⟨?_, ?_, ?_⟩ <;> intros <;> simp_all

theorem write_result_cases_witness :
    64 ≤ sOpen.max_packet_size ∧
    (macos_vmnet_write sOpen 64 { status := VMNET_SUCCESS, pkt_cnt := 1 }).1 = (64 : Int) :=
  ⟨by decide, (write_result_cases sOpen 64 _ (by decide)).1 rfl rfl⟩

/-- C6: close called while the InterfaceHandle is null or with a
descriptor different from the external socket end returns -1, performs no
framework call, and leaves the whole adapter state unchanged. -/
theorem close_invalid_handle_noop (s : VmnetState) (fd : Int) (o : CloseOracle)
    (h : s.vmnet_if = none ∨ fd ≠ s.read_socket0) :
    macos_vmnet_close s fd o = (-1, s) := by
  simp only [macos_vmnet_close]
  rw [if_pos h]

theorem close_invalid_handle_noop_witness :
    (initState.vmnet_if = none ∨ (0 : Int) ≠ initState.read_socket0) ∧
    macos_vmnet_close initState 0 { stop_status := VMNET_SUCCESS } = (-1, initState) :=
  ⟨Or.inl rfl, close_invalid_handle_noop initState 0 _ (Or.inl rfl)⟩

/-- C7: per ingress event: a non-success interface status returns at once
with no framework read call; a non-success read-packet status is recorded
and no datagram is written; read-packet success with one packet of size S
(0 < S ≤ MaxPacketSize) writes exactly one datagram of S bytes to the
internal socket end; success with zero packets writes nothing. -/
theorem read_event_cases (s : VmnetState) (o : ReadOracle) :
    (s.if_status ≠ VMNET_SUCCESS → macos_vmnet_read s o = s) ∧
    (s.if_status = VMNET_SUCCESS → o.status ≠ VMNET_SUCCESS →
      (macos_vmnet_read s o).if_status = o.status ∧
      (macos_vmnet_read s o).datagrams = s.datagrams) ∧
    (s.if_status = VMNET_SUCCESS → o.status = VMNET_SUCCESS → o.count = 1 → o.iovcnt = 1 →
      0 < o.pkt_size → o.pkt_size ≤ s.max_packet_size → o.writev_ok = true →
      (macos_vmnet_read s o).datagrams = s.datagrams ++ [o.pkt_size]) ∧
    (s.if_status = VMNET_SUCCESS → o.status = VMNET_SUCCESS → o.count = 0 →
      (macos_vmnet_read s o).datagrams = s.datagrams) := by
  refine ⟨?_, ?_, ?_, ?_⟩ <;> intros <;> simp_all [macos_vmnet_read]

theorem read_event_cases_witness :
    (sOpen.if_status = VMNET_SUCCESS ∧ 0 < 3 ∧ 3 ≤ sOpen.max_packet_size) ∧
    (macos_vmnet_read sOpen
      { status := VMNET_SUCCESS, count := 1, pkt_size := 3, iovcnt := 1, writev_ok := true
      }).datagrams = sOpen.datagrams ++ [3] :=
  ⟨by decide,
   (read_event_cases sOpen _).2.2.1 (by decide) rfl rfl rfl (by decide) (by decide) rfl⟩

/-- C9: a failed egress write never modifies the shared status cell:
`macos_vmnet_write` stores the framework status only in a local variable
shadowing the global `if_status`, so the global stays unchanged for every
oracle outcome, and a subsequent ingress event (while the global status
is success) still invokes the framework's read-packet operation. -/
theorem write_shadows_global_status (s : VmnetState) (len : Nat) (o : WriteOracle)
    (ro : ReadOracle) :
    ((macos_vmnet_write s len o).2).if_status = s.if_status ∧
    (s.if_status = VMNET_SUCCESS →
      (macos_vmnet_read ((macos_vmnet_write s len o).2) ro).fw_calls =
        ((macos_vmnet_write s len o).2).fw_calls ++ [FwCall.fwRead]) := by
  have h1 : ((macos_vmnet_write s len o).2).if_status = s.if_status := by
    simp only [macos_vmnet_write]
    split
    · rfl
    · split <;> rfl
  refine ⟨h1, fun hs => ?_⟩
  have hs1 : ((macos_vmnet_write s len o).2).if_status = VMNET_SUCCESS := h1.trans hs
  simp only [macos_vmnet_read, hs1, ne_eq, not_true_eq_false, if_false, ite_false]
  split
  · rfl
  · split
    · split <;> rfl
    · rfl

theorem write_shadows_global_status_witness :
    sOpen.if_status = VMNET_SUCCESS ∧
    (macos_vmnet_read
        ((macos_vmnet_write sOpen 64 { status := VMNET_FAILURE, pkt_cnt := 1 }).2)
        { status := VMNET_SUCCESS, count := 0, pkt_size := 0, iovcnt := 1, writev_ok := true
        }).fw_calls =
      ((macos_vmnet_write sOpen 64 { status := VMNET_FAILURE, pkt_cnt := 1 }).2).fw_calls ++
        [FwCall.fwRead] :=
  ⟨by decide, (write_shadows_global_status sOpen 64 _ _).2 (by decide)⟩

/-- C10: while MaxPacketSize is still 0 and the InterfaceHandle is still
null (as before any successful open), every write of positive length is
rejected by the oversize check with no framework call, but a zero-length
write passes the check and invokes the framework's write-packet operation
with the null handle. -/
theorem uninitialized_write_behavior (s : VmnetState)
    (h0 : s.max_packet_size = 0) (hif : s.vmnet_if = none) :
    (∀ len : Nat, 0 < len → ∀ o : WriteOracle, macos_vmnet_write s len o = (-1, s)) ∧
    (∀ o : WriteOracle,
      ((macos_vmnet_write s 0 o).2).fw_calls = s.fw_calls ++ [FwCall.fwWrite none]) := by
  constructor
  · intro len hlen o
    have h : len > s.max_packet_size := by omega
    simp [macos_vmnet_write, h]
  · intro o
    simp only [macos_vmnet_write, h0, hif]
    split <;> [omega; split] <;> rfl

theorem uninitialized_write_behavior_witness :
    (initState.max_packet_size = 0 ∧ initState.vmnet_if = none) ∧
    macos_vmnet_write initState 1 { status := VMNET_SUCCESS, pkt_cnt := 1 } =
      (-1, initState) ∧
    ((macos_vmnet_write initState 0 { status := VMNET_SUCCESS, pkt_cnt := 1 }).2).fw_calls =
      initState.fw_calls ++ [FwCall.fwWrite none] :=
  ⟨⟨rfl, rfl⟩,
   (uninitialized_write_behavior initState rfl rfl).1 1 (by decide) _,
   (uninitialized_write_behavior initState rfl rfl).2 _⟩

/-- C1 counterexample: after a successful open (fds 3/4, handle 1,
MaxPacketSize 1514), a close whose stop completion reports
`VMNET_FAILURE` returns -1 yet releases nothing: the dispatch context is
still held, the ReadBuffer is still allocated and both socket ends are
still open — refuting "it nevertheless releases every local resource". -/
theorem close_stop_failure_counterexample :
    (macos_vmnet_close sOpen 3 { stop_status := VMNET_FAILURE }).1 = -1 ∧
    ((macos_vmnet_close sOpen 3 { stop_status := VMNET_FAILURE }).2).if_queue = true ∧
    ((macos_vmnet_close sOpen 3 { stop_status := VMNET_FAILURE }).2).read_iov_in.iov_base
      = true ∧
    ((macos_vmnet_close sOpen 3 { stop_status := VMNET_FAILURE }).2).sock0_open = true ∧
    ((macos_vmnet_close sOpen 3 { stop_status := VMNET_FAILURE }).2).sock1_open = true := by
  decide

/-- C1 (amended): if the framework's stop operation completes with a
non-success status during a validly-addressed close, close returns an
error and releases no local resource: the dispatch context, the
ReadBuffer and both socket ends are left exactly as they were (the
release code after the status check is skipped). -/
theorem close_stop_failure_releases_nothing (s : VmnetState) (fd : Int) (o : CloseOracle)
    (h1 : s.vmnet_if ≠ none) (h2 : fd = s.read_socket0)
    (h3 : o.stop_status ≠ VMNET_SUCCESS) :
    (macos_vmnet_close s fd o).1 = -1 ∧
    ((macos_vmnet_close s fd o).2).if_queue = s.if_queue ∧
    ((macos_vmnet_close s fd o).2).read_iov_in = s.read_iov_in ∧
    ((macos_vmnet_close s fd o).2).sock0_open = s.sock0_open ∧
    ((macos_vmnet_close s fd o).2).sock1_open = s.sock1_open := by
  have hg : ¬ (s.vmnet_if = none ∨ fd ≠ s.read_socket0) := by
    push_neg
    exact ⟨h1, h2⟩
  simp [macos_vmnet_close, hg, h3]

theorem close_stop_failure_releases_nothing_witness :
    (sOpen.vmnet_if ≠ none ∧ (3 : Int) = sOpen.read_socket0 ∧
      VMNET_FAILURE ≠ VMNET_SUCCESS) ∧
    ((macos_vmnet_close sOpen 3 { stop_status := VMNET_FAILURE }).1 = -1 ∧
     ((macos_vmnet_close sOpen 3 { stop_status := VMNET_FAILURE }).2).if_queue
       = sOpen.if_queue ∧
     ((macos_vmnet_close sOpen 3 { stop_status := VMNET_FAILURE }).2).read_iov_in
       = sOpen.read_iov_in ∧
     ((macos_vmnet_close sOpen 3 { stop_status := VMNET_FAILURE }).2).sock0_open
       = sOpen.sock0_open ∧
     ((macos_vmnet_close sOpen 3 { stop_status := VMNET_FAILURE }).2).sock1_open
       = sOpen.sock1_open) :=
  ⟨by decide,
   close_stop_failure_releases_nothing sOpen 3 _ (by decide) (by decide) (by decide)⟩

/-- C2 counterexample: an open in which socketpair succeeds (fds 3/4) but
the framework completes start with `VMNET_FAILURE` returns -1 and does
not allocate the ReadBuffer, but both socket ends stay open and the
dispatch context stays held — refuting "every resource allocated so far
during that open attempt is freed before open returns". -/
theorem open_start_failure_counterexample :
    (macos_vmnet_open initState openStartFail).1 = -1 ∧
    ((macos_vmnet_open initState openStartFail).2).sock0_open = true ∧
    ((macos_vmnet_open initState openStartFail).2).sock1_open = true ∧
    ((macos_vmnet_open initState openStartFail).2).if_queue = true ∧
    ((macos_vmnet_open initState openStartFail).2).read_iov_in.iov_base = false := by
  decide

/-- C2 (amended): whenever open fails it returns -1 and the ReadBuffer is
not allocated; when socket-pair creation fails nothing at all is changed,
but when the framework's start completion reports a non-success status
the already-created socket pair and dispatch context are NOT freed — they
remain allocated when open returns. -/
theorem open_failure_behavior (s : VmnetState) (o : OpenOracle) :
    (o.socketpair_ok = false → macos_vmnet_open s o = (-1, s)) ∧
    (o.socketpair_ok = true → o.start_status ≠ VMNET_SUCCESS →
      (macos_vmnet_open s o).1 = -1 ∧
      ((macos_vmnet_open s o).2).read_iov_in = s.read_iov_in ∧
      ((macos_vmnet_open s o).2).max_packet_size = s.max_packet_size ∧
      ((macos_vmnet_open s o).2).sock0_open = true ∧
      ((macos_vmnet_open s o).2).sock1_open = true ∧
      ((macos_vmnet_open s o).2).if_queue = true) := by
  constructor
  · intro hsp
    simp [macos_vmnet_open, hsp]
  · intro hsp hst
    simp [macos_vmnet_open, hsp, hst]

theorem open_failure_behavior_witness :
    (openStartFail.socketpair_ok = true ∧ openStartFail.start_status ≠ VMNET_SUCCESS) ∧
    ((macos_vmnet_open initState openStartFail).1 = -1 ∧
     ((macos_vmnet_open initState openStartFail).2).read_iov_in = initState.read_iov_in ∧
     ((macos_vmnet_open initState openStartFail).2).max_packet_size
       = initState.max_packet_size ∧
     ((macos_vmnet_open initState openStartFail).2).sock0_open = true ∧
     ((macos_vmnet_open initState openStartFail).2).sock1_open = true ∧
     ((macos_vmnet_open initState openStartFail).2).if_queue = true) :=
  ⟨by decide, (open_failure_behavior initState openStartFail).2 rfl (by decide)⟩

/-- C3 counterexample: open succeeds, close returns 0 (success); a
subsequent write of 64 bytes (≤ the stale MaxPacketSize 1514, framework
accepting with count 1) returns 64 — not an error — and appends a
framework write-packet call on the stale handle to the trace, refuting
"every subsequent call to write returns an error and performs no
framework call". -/
theorem write_after_close_counterexample :
    (macos_vmnet_close sOpen 3 { stop_status := VMNET_SUCCESS }).1 = 0 ∧
    (macos_vmnet_write sClosed 64 { status := VMNET_SUCCESS, pkt_cnt := 1 }).1 = 64 ∧
    ((macos_vmnet_write sClosed 64 { status := VMNET_SUCCESS, pkt_cnt := 1 }).2).fw_calls =
      sClosed.fw_calls ++ [FwCall.fwWrite (some 1)] := by
  decide

/-- C3 (amended): after close returns success neither `max_packet_size`
nor `vmnet_if` is reset, so a subsequent write whose length is at most
the stale MaxPacketSize still invokes the framework's write-packet
operation on the stale (non-null) handle; only oversize writes fail
without a framework call. -/
theorem write_after_close_still_calls_framework (s : VmnetState) (fd : Int)
    (co : CloseOracle) (wo : WriteOracle) (len : Nat)
    (hc : (macos_vmnet_close s fd co).1 = 0)
    (hlen : len ≤ ((macos_vmnet_close s fd co).2).max_packet_size) :
    ((macos_vmnet_close s fd co).2).vmnet_if = s.vmnet_if ∧
    s.vmnet_if ≠ none ∧
    ((macos_vmnet_write ((macos_vmnet_close s fd co).2) len wo).2).fw_calls =
      ((macos_vmnet_close s fd co).2).fw_calls ++ [FwCall.fwWrite s.vmnet_if] := by
  by_cases hg : s.vmnet_if = none ∨ fd ≠ s.read_socket0
  · simp [macos_vmnet_close, hg] at hc
  · push_neg at hg
    by_cases hst : co.stop_status = VMNET_SUCCESS
    · simp only [macos_vmnet_close, hg.1, hg.2, hst] at hlen ⊢
      simp only [ne_eq, not_false_eq_true, reduceIte, not_true_eq_false,
        or_self, if_false] at hlen ⊢
      refine ⟨by trivial, hg.1, ?_⟩
      have hng : ¬ len > s.max_packet_size := by
        simpa using hlen
      simp only [macos_vmnet_write, hng, if_false]
      split <;> rfl
    · simp [macos_vmnet_close, hg.1, hg.2, hst] at hc

theorem write_after_close_still_calls_framework_witness :
    ((macos_vmnet_close sOpen 3 { stop_status := VMNET_SUCCESS }).1 = 0 ∧
      64 ≤ ((macos_vmnet_close sOpen 3 { stop_status := VMNET_SUCCESS }).2).max_packet_size) ∧
    (((macos_vmnet_close sOpen 3 { stop_status := VMNET_SUCCESS }).2).vmnet_if
      = sOpen.vmnet_if ∧
     sOpen.vmnet_if ≠ none ∧
     ((macos_vmnet_write ((macos_vmnet_close sOpen 3 { stop_status := VMNET_SUCCESS }).2) 64
        { status := VMNET_SUCCESS, pkt_cnt := 1 }).2).fw_calls =
       ((macos_vmnet_close sOpen 3 { stop_status := VMNET_SUCCESS }).2).fw_calls ++
         [FwCall.fwWrite sOpen.vmnet_if]) :=
  ⟨by decide,
   write_after_close_still_calls_framework sOpen 3 _ _ 64 (by decide) (by decide)⟩

/-- C8 counterexample: a successful open followed by a successful close
(which returns 0) leaves `vmnet_if` still equal to `some 1` — non-null —
refuting "it is null again after a successful close". -/
theorem handle_after_close_counterexample :
    (macos_vmnet_close sOpen 3 { stop_status := VMNET_SUCCESS }).1 = 0 ∧
    sClosed.vmnet_if = some 1 := by
  decide

/-- C8 (amended): the InterfaceHandle is null in the initial state; after
any open that does not return -1 it holds exactly the reference
`vmnet_start_interface` returned; and a successful close requires the
handle to be non-null but never clears it — the handle is unchanged (and
hence still non-null) after a successful close. -/
theorem vmnet_if_lifecycle :
    initState.vmnet_if = none ∧
    (∀ (s : VmnetState) (o : OpenOracle), (macos_vmnet_open s o).1 ≠ -1 →
      ((macos_vmnet_open s o).2).vmnet_if = o.start_ref) ∧
    (∀ (s : VmnetState) (fd : Int) (o : CloseOracle), (macos_vmnet_close s fd o).1 = 0 →
      s.vmnet_if ≠ none ∧ ((macos_vmnet_close s fd o).2).vmnet_if = s.vmnet_if) := by
  refine ⟨rfl, ?_, ?_⟩
  · intro s o ho
    by_cases hsp : o.socketpair_ok = false
    · simp [macos_vmnet_open, hsp] at ho
    · by_cases hst : o.start_status = VMNET_SUCCESS
      · simp [macos_vmnet_open, hsp, hst]
      · simp [macos_vmnet_open, hsp, hst] at ho
  · intro s fd o hc
    by_cases hg : s.vmnet_if = none ∨ fd ≠ s.read_socket0
    · simp [macos_vmnet_close, hg] at hc
    · push_neg at hg
      refine ⟨hg.1, ?_⟩
      by_cases hst : o.stop_status = VMNET_SUCCESS
      · simp [macos_vmnet_close, hg.1, hg.2, hst]
      · simp [macos_vmnet_close, hg.1, hg.2, hst] at hc

theorem vmnet_if_lifecycle_witness :
    (macos_vmnet_close sOpen 3 { stop_status := VMNET_SUCCESS }).1 = 0 ∧
    (sOpen.vmnet_if ≠ none ∧
     ((macos_vmnet_close sOpen 3 { stop_status := VMNET_SUCCESS }).2).vmnet_if
       = sOpen.vmnet_if) :=
  ⟨by decide, vmnet_if_lifecycle.2.2 sOpen 3 _ (by decide)⟩
